import Mathlib

/-!
Verification development for the performance-analytics engine of
mystoreofvalue.com (src/calculate_performance.py, src/update_performance_monthly.py,
src/calculate_dca_performance.py).

Modelling conventions:
* calendar dates are integers (days since an arbitrary epoch); a date `d` is a
  Monday exactly when `d % 7 = 0` (Python's `date.weekday() == 0`);
* prices and returns are exact rationals (`ℚ`); quantities the source computes
  with `sqrt` or a fractional power live in `ℝ`;
* a price series is a `List (ℤ × ℚ)` of (date, USD price) rows, ordered by the
  SQL `ORDER BY date ASC` of `get_price_data`;
* fallible computations return `Option`: `none` models Python returning `None`
  and also NumPy producing NaN (e.g. `np.std` with `ddof=1` on fewer than two
  samples, which yields NaN with a "Degrees of freedom <= 0" warning).
-/

/-- Dates of a fetched price series (`dates = [d[0] for d in price_data]`). -/
def dateList (data : List (ℤ × ℚ)) : List ℤ := data.map Prod.fst

/-- Prices of a fetched price series (`prices = np.array([float(d[1]) for d in price_data])`). -/
def priceList (data : List (ℤ × ℚ)) : List ℚ := data.map Prod.snd

/-- `calculate_returns` of calculate_performance.py (lines 93-103): the empty
list for fewer than two prices, otherwise the daily simple returns
`(p[i] - p[i-1]) / p[i-1]`. -/
def calculate_returns : List ℚ → List ℚ
  | a :: b :: rest => (b - a) / a :: calculate_returns (b :: rest)
  | _ => []

/-- `calculate_returns` of update_performance_monthly.py (lines 85-87):
`np.diff(prices) / prices[:-1]`. -/
def calculate_returns_np (prices : List ℚ) : List ℚ :=
  List.zipWith (fun a b => (b - a) / a) prices prices.tail

/-- Mean of a list of rationals (`np.mean`); `0/0 = 0` on the empty list,
which is only reached under guards in the source. -/
def listMean (l : List ℚ) : ℚ := l.sum / l.length

/-- Bessel-corrected sample variance (`np.var(l, ddof=1)` without the final
square root); meaningful only for lists of length ≥ 2, all uses are guarded. -/
def sampleVar (l : List ℚ) : ℚ :=
  ((l.map (fun x => (x - listMean l) ^ 2)).sum) / ((l.length : ℚ) - 1)

/-- `calculate_volatility` (identical in calculate_performance.py lines 149-164
and update_performance_monthly.py lines 106-116, with `annualize=True`):
`np.std(returns, ddof=1) * sqrt(365) * 100`, and `0.0` for fewer than two
returns. -/
noncomputable def calculate_volatility (returns : List ℚ) : ℝ :=
  if returns.length < 2 then 0
  else Real.sqrt (sampleVar returns) * Real.sqrt 365 * 100

/-- `calculate_downside_deviation` (identical in calculate_performance.py lines
166-185 and update_performance_monthly.py lines 118-133): `0.0` for fewer than
two returns or no negative return; otherwise `np.std(neg, ddof=1) * sqrt(365)`.
With exactly one negative return the source's `np.std(neg, ddof=1)` is `0/0`,
i.e. NaN, modelled as `none`. -/
noncomputable def calculate_downside_deviation (returns : List ℚ) : Option ℝ :=
  if returns.length < 2 then some 0
  else
    let neg := returns.filter (fun r => r < 0)
    if neg.length = 0 then some 0
    else if neg.length < 2 then none
    else some (Real.sqrt (sampleVar neg) * Real.sqrt 365)

/-- `RISK_FREE_RATE = 0.02` (both calculators). -/
noncomputable def RISK_FREE_RATE : ℝ := 2 / 100

/-- `calculate_sharpe_ratio` (calculate_performance.py lines 187-192, duplicated
in update_performance_monthly.py lines 135-139). -/
noncomputable def calculate_sharpe_ratio (ann vol : ℝ) : ℝ :=
  if vol = 0 then 0 else (ann / 100 - RISK_FREE_RATE) / (vol / 100)

/-- `calculate_sortino_ratio` (calculate_performance.py lines 194-199, duplicated
in update_performance_monthly.py lines 141-145). -/
noncomputable def calculate_sortino_ratio (ann dd : ℝ) : ℝ :=
  if dd = 0 then 0 else (ann / 100 - RISK_FREE_RATE) / dd

/-- `calculate_calmar_ratio` (calculate_performance.py lines 201-206, duplicated
in update_performance_monthly.py lines 147-151). -/
noncomputable def calculate_calmar_ratio (ann mdd : ℝ) : ℝ :=
  if mdd = 0 then 0 else (ann / 100) / (mdd / 100)

/-- Peak-tracking loop of `calculate_max_drawdown`: carries the running peak,
the most negative drawdown so far, its index, and the current index. -/
def mdd_loop : ℚ → ℚ → ℕ → ℕ → List ℚ → ℚ × ℕ
  | _, maxDd, maxIdx, _, [] => (maxDd, maxIdx)
  | peak, maxDd, maxIdx, i, p :: rest =>
    let peak2 := if peak < p then p else peak
    let dd := (p - peak2) / peak2
    if dd < maxDd then mdd_loop peak2 dd i (i + 1) rest
    else mdd_loop peak2 maxDd maxIdx (i + 1) rest

/-- `calculate_max_drawdown` of calculate_performance.py (lines 126-147):
`(0.0, 0)` for fewer than two prices, otherwise `(abs(max_dd * 100), idx)` from
the peak-tracking loop started at `peak = prices[0]`. -/
def calculate_max_drawdown (prices : List ℚ) : ℚ × ℕ :=
  if prices.length < 2 then (0, 0)
  else
    match prices with
    | [] => (0, 0)
    | p :: _ =>
      let r := mdd_loop p 0 0 0 prices
      (|r.1 * 100|, r.2)

/-- `calculate_max_drawdown` of update_performance_monthly.py (lines 89-104):
same loop but without the length guard (on the empty list the Python code would
raise an IndexError; that branch is unreachable behind the validator, we return
`(0, 0)` there). -/
def calculate_max_drawdown_m (prices : List ℚ) : ℚ × ℕ :=
  match prices with
  | [] => (0, 0)
  | p :: _ =>
    let r := mdd_loop p 0 0 0 prices
    (|r.1 * 100|, r.2)

/-- Minimum-tracking loop of `calculate_max_loss_from_entry` (strict `<`, so the
first occurrence of the minimum keeps its index). -/
def min_loop : ℚ → ℕ → ℕ → List ℚ → ℚ × ℕ
  | minP, minIdx, _, [] => (minP, minIdx)
  | minP, minIdx, i, p :: rest =>
    if p < minP then min_loop p i (i + 1) rest
    else min_loop minP minIdx (i + 1) rest

/-- `calculate_max_loss_from_entry` of calculate_performance.py (lines 105-124):
finds the minimum price and its first index, returns
`(((min_price - entry) / entry) * 100, idx)`; `(0.0, 0)` for the empty list. -/
def calculate_max_loss_from_entry (prices : List ℚ) (entry : ℚ) : ℚ × ℕ :=
  match prices with
  | [] => (0, 0)
  | p :: _ =>
    let r := min_loop p 0 0 prices
    (((r.1 - entry) / entry) * 100, r.2)

/-- `np.min` on a list (junk value 0 on the empty list, unreachable in guarded
uses). -/
def np_min : List ℚ → ℚ
  | [] => 0
  | p :: rest => rest.foldl min p

/-- `np.max` on a list (junk value 0 on the empty list). -/
def np_max : List ℚ → ℚ
  | [] => 0
  | p :: rest => rest.foldl max p

/-- First-occurrence minimum-index loop underlying `np.argmin`. -/
def argmin_loop : ℚ → ℕ → ℕ → List ℚ → ℕ
  | _, bi, _, [] => bi
  | b, bi, i, p :: rest =>
    if p < b then argmin_loop p i (i + 1) rest
    else argmin_loop b bi (i + 1) rest

/-- `np.argmin` on a list: index of the first occurrence of the minimum
(0 on the empty list, unreachable in guarded uses). -/
def np_argmin : List ℚ → ℕ
  | [] => 0
  | p :: rest => argmin_loop p 0 1 rest

/-- Buy-and-hold CAGR of both calculators (calculate_performance.py lines
261-263, update_performance_monthly.py lines 191-192):
`(((end_price / start_price) ** (1 / years)) - 1) * 100` with
`years = holding_years`, the declared holding period. -/
noncomputable def bh_annualized_return (ps pe : ℚ) (h : ℕ) : ℝ :=
  (((pe / ps : ℚ) : ℝ) ^ ((1 : ℝ) / (h : ℝ)) - 1) * 100

/-- The metric vector built by `calculate_performance_metrics` (identity fields
symbol/asset_type/start_date/end_date/holding_period_years are the call
arguments copied through unchanged and are omitted here). -/
structure BHMetrics where
  start_price : ℚ
  end_price : ℚ
  min_price : ℚ
  max_price : ℚ
  total_return_pct : ℚ
  annualized_return_pct : ℝ
  volatility_pct : ℝ
  max_drawdown_pct : ℚ
  max_drawdown_date : ℤ
  max_loss_from_entry_pct : ℚ
  max_loss_from_entry_date : ℤ
  sharpe_ratio : ℝ
  sortino_ratio : Option ℝ
  calmar_ratio : ℝ
  positive_days : ℕ
  negative_days : ℕ
  win_rate_pct : ℚ
  total_trading_days : ℕ
  data_completeness_pct : ℚ

/-- Metric computation of calculate_performance.py's
`calculate_performance_metrics` (lines 252-321), after validation passed. -/
noncomputable def bh_build_full (s e : ℤ) (h : ℕ) (data : List (ℤ × ℚ)) : BHMetrics :=
  let prices := priceList data
  let dates := dateList data
  let start_price := prices.headD 0
  let end_price := prices.getLastD 0
  let total_return_pct := (end_price - start_price) / start_price * 100
  let returns := calculate_returns prices
  let volatility_pct := calculate_volatility returns
  let mdd := calculate_max_drawdown prices
  let ml := calculate_max_loss_from_entry prices start_price
  let downside_dev := calculate_downside_deviation returns
  let ann := bh_annualized_return start_price end_price h
  let positive_days := (returns.filter (fun r => 0 < r)).length
  let expected_days := e - s
  { start_price := start_price
    end_price := end_price
    min_price := np_min prices
    max_price := np_max prices
    total_return_pct := total_return_pct
    annualized_return_pct := ann
    volatility_pct := volatility_pct
    max_drawdown_pct := mdd.1
    max_drawdown_date := if mdd.2 < dates.length then dates.getD mdd.2 0 else dates.getLastD 0
    max_loss_from_entry_pct := ml.1
    max_loss_from_entry_date := if ml.2 < dates.length then dates.getD ml.2 0 else dates.headD 0
    sharpe_ratio := calculate_sharpe_ratio ann volatility_pct
    sortino_ratio := downside_dev.map (fun d => calculate_sortino_ratio ann d)
    calmar_ratio := calculate_calmar_ratio ann mdd.1
    positive_days := positive_days
    negative_days := (returns.filter (fun r => r < 0)).length
    win_rate_pct := if returns.length ≠ 0 then (positive_days : ℚ) / returns.length * 100 else 0
    total_trading_days := data.length
    data_completeness_pct :=
      if 0 < expected_days then (data.length : ℚ) / (expected_days : ℚ) * 100 else 0 }

/-- Metric computation of update_performance_monthly.py's
`calculate_performance_metrics` (lines 183-251), after validation passed.
Differences from the full run: returns via `np.diff`, drawdown without the
short-series guard, max loss from entry via `np.min`/`np.argmin` of
`(prices - start_price) / start_price`, and the data-completeness denominator
`(last_date - first_date).days + 1`. -/
noncomputable def bh_build_monthly (s e : ℤ) (h : ℕ) (data : List (ℤ × ℚ)) : BHMetrics :=
  let prices := priceList data
  let dates := dateList data
  let start_price := prices.headD 0
  let end_price := prices.getLastD 0
  let total_return_pct := (end_price - start_price) / start_price * 100
  let returns := calculate_returns_np prices
  let volatility_pct := calculate_volatility returns
  let mdd := calculate_max_drawdown_m prices
  let losses := prices.map (fun p => (p - start_price) / start_price)
  let max_loss_idx := np_argmin losses
  let downside_dev := calculate_downside_deviation returns
  let ann := bh_annualized_return start_price end_price h
  let positive_days := (returns.filter (fun r => 0 < r)).length
  let expected_days_total := (dates.getLastD 0 - dates.headD 0) + 1
  { start_price := start_price
    end_price := end_price
    min_price := np_min prices
    max_price := np_max prices
    total_return_pct := total_return_pct
    annualized_return_pct := ann
    volatility_pct := volatility_pct
    max_drawdown_pct := mdd.1
    max_drawdown_date := if mdd.2 < dates.length then dates.getD mdd.2 0 else dates.getLastD 0
    max_loss_from_entry_pct := np_min losses * 100
    max_loss_from_entry_date := dates.getD max_loss_idx 0
    sharpe_ratio := calculate_sharpe_ratio ann volatility_pct
    sortino_ratio := downside_dev.map (fun d => calculate_sortino_ratio ann d)
    calmar_ratio := calculate_calmar_ratio ann mdd.1
    positive_days := positive_days
    negative_days := (returns.filter (fun r => r < 0)).length
    win_rate_pct := if returns.length ≠ 0 then (positive_days : ℚ) / returns.length * 100 else 0
    total_trading_days := data.length
    data_completeness_pct :=
      if 0 < expected_days_total then (data.length : ℚ) / (expected_days_total : ℚ) * 100
      else 0 }

/-- `int(expected_days * 0.7)` with `expected_days = holding_years * 365`
(exact-rational version of the float computation). -/
def minRequiredDays (h : ℕ) : ℕ := h * 365 * 7 / 10

/-- The shared window-validation gate: the three CRITICAL CHECKs plus the
minimum-sample-count check, identical in calculate_performance.py (lines
221-250), update_performance_monthly.py (lines 158-181) and
calculate_dca_performance.py (lines 314-340). On the empty list the Python
code would raise an IndexError at `dates[0]` (reachable only when
`holding_years = 0`); a raising task yields no record, modelled as reject. -/
def window_validate (s e : ℤ) (h : ℕ) (data : List (ℤ × ℚ)) : Bool :=
  if data.length < minRequiredDays h then false
  else if data.isEmpty then false
  else if (dateList data).headD 0 ≠ s then false
  else if (dateList data).getLastD 0 ≠ e then false
  else if (dateList data).getLastD 0 - (dateList data).headD 0 < (h : ℤ) * 365 - 10 then
    false
  else true

/-- `calculate_performance_metrics` of calculate_performance.py (lines 208-321):
`None` if any validation check fails, otherwise the metric record. -/
noncomputable def calculate_performance_metrics (s e : ℤ) (h : ℕ)
    (data : List (ℤ × ℚ)) : Option BHMetrics :=
  if window_validate s e h data then some (bh_build_full s e h data) else none

/-- `calculate_performance_metrics` of update_performance_monthly.py
(lines 153-251). -/
noncomputable def calculate_performance_metrics_monthly (s e : ℤ) (h : ℕ)
    (data : List (ℤ × ℚ)) : Option BHMetrics :=
  if window_validate s e h data then some (bh_build_monthly s e h data) else none

/-- `INVESTMENT_PER_PERIOD = 100` (calculate_dca_performance.py line 30). -/
def INVESTMENT_PER_PERIOD : ℚ := 100

/-- Advance a date to the first Monday on or after it: the closed form of the
`while current.weekday() != 0: current += timedelta(days=1)` loop of
`get_dca_purchase_dates` (calculate_dca_performance.py lines 105-107). -/
def advance_to_monday (d : ℤ) : ℤ := d + (7 - d % 7) % 7

/-- Fuel-driven unfolding of `while current <= end_dt: append; current += 7`
(calculate_dca_performance.py lines 109-111). -/
def weekly_aux : ℕ → ℤ → ℤ → List ℤ
  | 0, _, _ => []
  | fuel + 1, m, e => if m ≤ e then m :: weekly_aux fuel (m + 7) e else []

/-- The weekly purchase-date loop, with enough fuel to run to completion. -/
def weekly_dates (m e : ℤ) : List ℤ := weekly_aux (e + 1 - m).toNat m e

/-- The `frequency == 'weekly'` branch of `get_dca_purchase_dates`
(calculate_dca_performance.py lines 104-111). -/
def get_dca_purchase_dates_weekly (s e : ℤ) : List ℤ :=
  weekly_dates (advance_to_monday s) e

/-- One executed DCA purchase (the dict appended at calculate_dca_performance.py
lines 149-154). -/
structure Purchase where
  pdate : ℤ
  price : ℚ
  units : ℚ
  invested : ℚ

/-- Lookup in the `price_dict` built at calculate_dca_performance.py lines
136-137; a Python dict comprehension keeps the last row for a duplicated date,
hence the search from the end. -/
def price_lookup (data : List (ℤ × ℚ)) (d : ℤ) : Option ℚ :=
  (data.reverse.find? (fun x => x.1 = d)).map Prod.snd

/-- The purchase loop of `simulate_dca` (calculate_dca_performance.py lines
144-157): scheduled dates with no observable price are silently skipped. -/
def dca_purchases (data : List (ℤ × ℚ)) (purchaseDates : List ℤ) (inv : ℚ) :
    List Purchase :=
  purchaseDates.filterMap (fun d =>
    (price_lookup data d).map (fun price => ⟨d, price, inv / price, inv⟩))

/-- Day-over-day portfolio returns over the active sub-series
(calculate_dca_performance.py lines 188-193): `np.diff / prev` with non-finite
values (from a zero denominator) removed. -/
def dca_portfolio_returns (active : List ℚ) : List ℚ :=
  (List.zipWith (fun a b => (a, b)) active active.tail).filterMap
    (fun ab => if ab.1 = 0 then none else some ((ab.2 - ab.1) / ab.1))

/-- Portfolio value at each series date (calculate_dca_performance.py lines
171-178): units acquired up to and including that date times that date's
price. -/
def dca_portfolio_values (data : List (ℤ × ℚ)) (purchases : List Purchase) :
    List ℚ :=
  data.map (fun z =>
    ((purchases.filter (fun p => p.pdate ≤ z.1)).map Purchase.units).sum * z.2)

/-- Index of the first date with positive portfolio value, default 0
(calculate_dca_performance.py line 185). -/
def dca_first_purchase_idx (data : List (ℤ × ℚ)) (purchases : List Purchase) : ℕ :=
  ((dca_portfolio_values data purchases).findIdx? (fun v => 0 < v)).getD 0

/-- Peak-tracking drawdown loop of `simulate_dca` (calculate_dca_performance.py
lines 205-214): like `mdd_loop` but with the `if peak > 0` guard on the
division. -/
def dca_mdd_loop : ℚ → ℚ → ℕ → ℕ → List ℚ → ℚ × ℕ
  | _, maxDd, maxIdx, _, [] => (maxDd, maxIdx)
  | peak, maxDd, maxIdx, i, p :: rest =>
    let peak2 := if peak < p then p else peak
    let dd := if 0 < peak2 then (p - peak2) / peak2 else 0
    if dd < maxDd then dca_mdd_loop peak2 dd i (i + 1) rest
    else dca_mdd_loop peak2 maxDd maxIdx (i + 1) rest

/-- Observed holding period of `simulate_dca` (calculate_dca_performance.py
line 268): `(dates[-1] - dates[0]).days / 365`. -/
def observed_years (data : List (ℤ × ℚ)) : ℚ :=
  (((dateList data).getLastD 0 - (dateList data).headD 0 : ℤ) : ℚ) / 365

/-- DCA annualized return (calculate_dca_performance.py line 269):
`(((final_value / total_invested) ** (1 / holding_years)) - 1) * 100` when
`holding_years > 0 and total_invested > 0`, else 0. -/
noncomputable def dca_annualized_return (ti fv hy : ℚ) : ℝ :=
  if 0 < hy ∧ 0 < ti then (((fv / ti : ℚ) : ℝ) ^ (((1 / hy : ℚ)) : ℝ) - 1) * 100
  else 0

/-- Inline DCA Sharpe ratio (calculate_dca_performance.py line 271): guarded by
`volatility_pct > 0`. -/
noncomputable def dca_sharpe_ratio (ann vol : ℝ) : ℝ :=
  if 0 < vol then (ann / 100 - RISK_FREE_RATE) / (vol / 100) else 0

/-- Inline DCA Sortino ratio (calculate_dca_performance.py line 272): guarded by
`downside_dev > 0`. -/
noncomputable def dca_sortino_ratio (ann dd : ℝ) : ℝ :=
  if 0 < dd then (ann / 100 - RISK_FREE_RATE) / dd else 0

/-- Inline DCA Calmar ratio (calculate_dca_performance.py line 273): guarded by
`max_drawdown_pct > 0`. -/
noncomputable def dca_calmar_ratio (ann : ℝ) (mdd : ℚ) : ℝ :=
  if 0 < mdd then (ann / 100) / ((mdd : ℝ) / 100) else 0

/-- The metric vector built by `simulate_dca` (identity fields added by
`calculate_dca_performance` are the call arguments copied through and are
omitted here). -/
structure DCAMetrics where
  total_invested : ℚ
  number_of_purchases : ℕ
  average_purchase_price : ℚ
  total_units_acquired : ℚ
  final_value : ℚ
  total_return_pct : ℚ
  annualized_return_pct : ℝ
  min_price : ℚ
  max_price : ℚ
  final_price : ℚ
  volatility_pct : ℝ
  max_drawdown_pct : ℚ
  max_drawdown_date : ℤ
  max_loss_from_cost_pct : ℚ
  max_loss_from_cost_date : ℤ
  sharpe_ratio : ℝ
  sortino_ratio : ℝ
  calmar_ratio : ℝ
  best_purchase_price : ℚ
  worst_purchase_price : ℚ
  price_variance_pct : ℚ
  lumpsum_return_pct : ℚ
  dca_vs_lumpsum_diff : ℚ

/-- Metric computation of `simulate_dca` (calculate_dca_performance.py lines
162-299), given the executed purchase list (known nonempty at this point). -/
noncomputable def dca_build (data : List (ℤ × ℚ)) (purchases : List Purchase)
    (inv : ℚ) : DCAMetrics :=
  let prices := priceList data
  let dates := dateList data
  let total_invested := (purchases.map Purchase.invested).sum
  let total_units := (purchases.map Purchase.units).sum
  let average_purchase_price := if 0 < total_units then total_invested / total_units else 0
  let final_price := prices.getLastD 0
  let final_value := total_units * final_price
  let portfolio_values := dca_portfolio_values data purchases
  let total_return_pct :=
    if 0 < total_invested then (final_value - total_invested) / total_invested * 100 else 0
  let fpi := dca_first_purchase_idx data purchases
  let active := portfolio_values.drop fpi
  let preturns := dca_portfolio_returns active
  let volatility_pct : ℝ :=
    if 1 < preturns.length then Real.sqrt (sampleVar preturns) * Real.sqrt 365 * 100 else 0
  let mdd_r := dca_mdd_loop (active.headD 0) 0 0 0 active
  let max_drawdown_pct := if 1 < active.length then |mdd_r.1 * 100| else 0
  let max_drawdown_date :=
    if 1 < active.length then dates.getD (fpi + mdd_r.2) 0 else dates.headD 0
  let cost_basis := dates.map (fun d =>
    ((purchases.filter (fun p => p.pdate ≤ d)).map Purchase.invested).sum)
  let loss_from_cost := List.zipWith
    (fun pv cb => if 0 < cb then (pv - cb) / cb else 0) portfolio_values cost_basis
  let active_lfc := loss_from_cost.drop fpi
  let ml_idx := fpi + np_argmin active_lfc
  let max_loss_from_cost_pct :=
    if active_lfc.length ≠ 0 then loss_from_cost.getD ml_idx 0 * 100 else 0
  let max_loss_from_cost_date :=
    if active_lfc.length ≠ 0 then dates.getD ml_idx 0 else dates.headD 0
  let downside_dev : ℝ :=
    if preturns.length ≠ 0 then
      (let neg := preturns.filter (fun r => r < 0)
       if 1 < neg.length then Real.sqrt (sampleVar neg) * Real.sqrt 365 else 0)
    else 0
  let purchase_prices := purchases.map Purchase.price
  let best_purchase_price := np_min purchase_prices
  let worst_purchase_price := np_max purchase_prices
  let first_price := prices.headD 0
  let lumpsum_units := total_invested / first_price
  let lumpsum_final_value := lumpsum_units * final_price
  let lumpsum_return_pct :=
    if 0 < total_invested then (lumpsum_final_value - total_invested) / total_invested * 100
    else 0
  let ann := dca_annualized_return total_invested final_value (observed_years data)
  { total_invested := total_invested
    number_of_purchases := purchases.length
    average_purchase_price := average_purchase_price
    total_units_acquired := total_units
    final_value := final_value
    total_return_pct := total_return_pct
    annualized_return_pct := ann
    min_price := np_min prices
    max_price := np_max prices
    final_price := final_price
    volatility_pct := volatility_pct
    max_drawdown_pct := max_drawdown_pct
    max_drawdown_date := max_drawdown_date
    max_loss_from_cost_pct := max_loss_from_cost_pct
    max_loss_from_cost_date := max_loss_from_cost_date
    sharpe_ratio := dca_sharpe_ratio ann volatility_pct
    sortino_ratio := dca_sortino_ratio ann downside_dev
    calmar_ratio := dca_calmar_ratio ann max_drawdown_pct
    best_purchase_price := best_purchase_price
    worst_purchase_price := worst_purchase_price
    price_variance_pct :=
      if 0 < best_purchase_price then
        (worst_purchase_price - best_purchase_price) / best_purchase_price * 100
      else 0
    lumpsum_return_pct := lumpsum_return_pct
    dca_vs_lumpsum_diff := total_return_pct - lumpsum_return_pct }

/-- `simulate_dca` (calculate_dca_performance.py lines 128-299): `None` when no
scheduled purchase executed, otherwise the metric record. -/
noncomputable def simulate_dca (data : List (ℤ × ℚ)) (purchaseDates : List ℤ)
    (inv : ℚ) : Option DCAMetrics :=
  let purchases := dca_purchases data purchaseDates inv
  if purchases.isEmpty then none else some (dca_build data purchases inv)

/-- `calculate_dca_performance` for `frequency='weekly'`
(calculate_dca_performance.py lines 301-362, metadata enrichment omitted):
validation, then schedule generation, then the simulation. -/
noncomputable def calculate_dca_performance_weekly (s e : ℤ) (h : ℕ)
    (data : List (ℤ × ℚ)) : Option DCAMetrics :=
  if window_validate s e h data then
    let pd := get_dca_purchase_dates_weekly s e
    if pd.isEmpty then none
    else simulate_dca data pd INVESTMENT_PER_PERIOD
  else none

/-- All pairwise percentage declines `100 * (p[i] - p[j]) / p[i]` for index
pairs `i ≤ j`: the brute-force reference oracle named by the specification. -/
def pair_declines : List ℚ → List ℚ
  | [] => []
  | p :: rest => ((p :: rest).map (fun q => 100 * (p - q) / p)) ++ pair_declines rest

/-- Brute-force max-drawdown oracle from the specification: the maximum over
all index pairs `i ≤ j` of `100 * (p[i] - p[j]) / p[i]`, taken as 0 when no
pair gives a positive decline. -/
def oracle_max_drawdown (prices : List ℚ) : ℚ := (pair_declines prices).foldr max 0

/-- Concrete 306-row series on days 0..355 with every Monday except day 0
removed (price 1 everywhere, 2 on the final day): an accepted 1-year window
`[0, 355]` in which exactly one weekly DCA purchase executes. -/
def series306 : List (ℤ × ℚ) :=
  (List.range 356).filterMap (fun i =>
    if i % 7 = 0 ∧ i ≠ 0 then none
    else some ((i : ℤ), if i = 355 then 2 else 1))

/-- A 356-row daily series whose first sample is one day later (day 1) than
the requested window start (day 0): rejected by the validator. -/
def series_late : List (ℤ × ℚ) :=
  (List.range 356).map (fun i => ((i : ℤ) + 1, 1))

/-- Tiny three-day series used for DCA witnesses. -/
def data3 : List (ℤ × ℚ) := [(0, 2), (1, 3), (2, 1)]

/-! ### Basic equivalences between the duplicated helper implementations -/

theorem calculate_returns_np_eq : ∀ prices : List ℚ,
    calculate_returns_np prices = calculate_returns prices
  | [] => rfl
  | [_] => rfl
  | a :: b :: rest => by
    have ih := calculate_returns_np_eq (b :: rest)
    simp only [calculate_returns_np, calculate_returns, List.tail_cons,
      List.zipWith_cons_cons] at ih ⊢
    rw [ih]

theorem calculate_max_drawdown_m_eq (prices : List ℚ) :
    calculate_max_drawdown_m prices = calculate_max_drawdown prices := by
  match prices with
  | [] => rfl
  | [p] => simp [calculate_max_drawdown_m, calculate_max_drawdown, mdd_loop]
  | p :: q :: rest =>
    simp only [calculate_max_drawdown_m, calculate_max_drawdown, List.length_cons]
    rw [if_neg (by omega)]

/-! ### The weekly purchase schedule -/

theorem advance_to_monday_le (d : ℤ) : d ≤ advance_to_monday d := by
  unfold advance_to_monday; omega

theorem advance_to_monday_mod (d : ℤ) : advance_to_monday d % 7 = 0 := by
  unfold advance_to_monday; omega

theorem advance_to_monday_lt (d : ℤ) : advance_to_monday d < d + 7 := by
  unfold advance_to_monday; omega

theorem advance_to_monday_min (d x : ℤ) (hx : d ≤ x) (hm : x % 7 = 0) :
    advance_to_monday d ≤ x := by
  unfold advance_to_monday; omega

theorem weekly_aux_eq : ∀ (fuel : ℕ) (m e : ℤ), (e + 1 - m).toNat ≤ fuel →
    weekly_aux fuel m e =
      (List.range ((e - m + 7) / 7).toNat).map (fun i : ℕ => m + 7 * (i : ℤ))
  | 0, m, e, h => by
    have hc : ((e - m + 7) / 7).toNat = 0 := by omega
    rw [hc]
    rfl
  | fuel + 1, m, e, h => by
    by_cases hme : m ≤ e
    · have ih := weekly_aux_eq fuel (m + 7) e (by omega)
      have hc : ((e - m + 7) / 7).toNat = ((e - (m + 7) + 7) / 7).toNat + 1 := by omega
      rw [weekly_aux, if_pos hme, ih, hc, List.range_succ_eq_map, List.map_cons,
        List.map_map]
      refine congrArg₂ _ (by ring) (List.map_congr_left fun i _ => ?_)
      simp only [Function.comp_apply]
      push_cast
      ring
    · have hc : ((e - m + 7) / 7).toNat = 0 := by omega
      rw [weekly_aux, if_neg hme, hc]
      rfl

theorem weekly_dates_eq (m e : ℤ) :
    weekly_dates m e =
      (List.range ((e - m + 7) / 7).toNat).map (fun i : ℕ => m + 7 * (i : ℤ)) :=
  weekly_aux_eq _ m e le_rfl

theorem weekly_dates_ne_nil (m e : ℤ) (h : m ≤ e) : weekly_dates m e ≠ [] := by
  rw [weekly_dates_eq]
  have h1 : (1 : ℤ) ≤ (e - m + 7) / 7 := by omega
  have hc : 0 < ((e - m + 7) / 7).toNat := by omega
  intro hnil
  have := congrArg List.length hnil
  simp at this
  omega

/-! ### Claim theorems: ratio zero policy (C1), downside-deviation NaN (C2),
weekly schedule (C8) -/

/-- C1: in all six ratio computations (the three buy-and-hold helper functions,
shared by the full run and the monthly update, and the three inline DCA
conditionals), a denominator exactly equal to 0 produces the ratio 0, whatever
the annualized return is; no NaN, infinity or exception is possible there. -/
theorem c1_ratio_zero_denominator (ann : ℝ) :
    calculate_sharpe_ratio ann 0 = 0 ∧
    calculate_sortino_ratio ann 0 = 0 ∧
    calculate_calmar_ratio ann 0 = 0 ∧
    dca_sharpe_ratio ann 0 = 0 ∧
    dca_sortino_ratio ann 0 = 0 ∧
    dca_calmar_ratio ann 0 = 0 := by
  refine ⟨?_, ?_, ?_, ?_, ?_, ?_⟩ <;>
    simp [calculate_sharpe_ratio, calculate_sortino_ratio, calculate_calmar_ratio,
      dca_sharpe_ratio, dca_sortino_ratio, dca_calmar_ratio]

/-- C2 (failing input): on the daily-returns array `[-1, 2]`, which has exactly
one negative return, the buy-and-hold downside deviation is NaN
(`np.std` of a single sample with `ddof=1`), modelled as `none` — not the 0
the specification requires for fewer than two negative returns. -/
theorem c2_one_negative_return_nan :
    calculate_downside_deviation [-1, 2] = none := rfl

/-- C8: for any window with start ≤ end, `advance_to_monday` really is the
first Monday on or after the start date; the weekly purchase schedule is
exactly the arithmetic 7-day progression from that Monday while within the end
date; every generated date lies in [start, end]; and when the start date is
not a Monday the first purchase date is strictly after the window opens. -/
theorem c8_weekly_schedule (s e : ℤ) (hse : s ≤ e) :
    (s ≤ advance_to_monday s ∧ advance_to_monday s % 7 = 0 ∧
      (∀ x : ℤ, s ≤ x → x % 7 = 0 → advance_to_monday s ≤ x)) ∧
    get_dca_purchase_dates_weekly s e =
      (List.range ((e - advance_to_monday s + 7) / 7).toNat).map
        (fun i : ℕ => advance_to_monday s + 7 * (i : ℤ)) ∧
    (∀ d ∈ get_dca_purchase_dates_weekly s e, s ≤ d ∧ d ≤ e) ∧
    (s % 7 ≠ 0 → s < advance_to_monday s) := by
  refine ⟨⟨advance_to_monday_le s, advance_to_monday_mod s,
      fun x hx hm => advance_to_monday_min s x hx hm⟩,
    weekly_dates_eq _ e, ?_, ?_⟩
  · intro d hd
    rw [get_dca_purchase_dates_weekly, weekly_dates_eq] at hd
    obtain ⟨i, hi, rfl⟩ := List.mem_map.1 hd
    rw [List.mem_range] at hi
    have h1 := advance_to_monday_le s
    have h2 := advance_to_monday_lt s
    constructor
    · have : (0 : ℤ) ≤ 7 * (i : ℤ) := by positivity
      omega
    · omega
  · intro hmod
    unfold advance_to_monday
    omega

/-- Witness for C8 at the concrete window `[3, 20]`: day 3 is not a Monday, the
schedule is `[7, 14]`, and both dates lie inside the window. -/
theorem c8_weekly_schedule_witness :
    (3 : ℤ) ≤ 20 ∧ (∀ d ∈ get_dca_purchase_dates_weekly 3 20, (3 : ℤ) ≤ d ∧ d ≤ 20) :=
  ⟨by decide, fun d hd => (c8_weekly_schedule 3 20 (by decide)).2.2.1 d hd⟩

/-! ### Window validation (C4) and the compounding identity (C9) -/

theorem window_validate_iff (s e : ℤ) (h : ℕ) (data : List (ℤ × ℚ)) :
    window_validate s e h data = true ↔
      minRequiredDays h ≤ data.length ∧ data ≠ [] ∧
      (dateList data).headD 0 = s ∧ (dateList data).getLastD 0 = e ∧
      (h : ℤ) * 365 - 10 ≤ (dateList data).getLastD 0 - (dateList data).headD 0 := by
  unfold window_validate
  cases data with
  | nil => simp
  | cons x xs =>
    constructor
    · intro ht
      split_ifs at ht with h0 hemp h1 h2 h3
      all_goals try exact absurd ht Bool.false_ne_true
      refine ⟨by omega, by simp, by simpa using h1, by simpa using h2, by omega⟩
    · rintro ⟨hcnt, -, h1, h2, h3⟩
      rw [if_neg (by omega), if_neg (by simp), if_neg (by simpa using h1),
        if_neg (by simpa using h2), if_neg (by omega)]

theorem calculate_performance_metrics_eq_none (s e : ℤ) (h : ℕ)
    (data : List (ℤ × ℚ)) (hval : window_validate s e h data = false) :
    calculate_performance_metrics s e h data = none := by
  rw [calculate_performance_metrics, hval]
  rfl

theorem calculate_performance_metrics_eq_some (s e : ℤ) (h : ℕ)
    (data : List (ℤ × ℚ)) (hval : window_validate s e h data = true) :
    calculate_performance_metrics s e h data = some (bh_build_full s e h data) := by
  rw [calculate_performance_metrics, hval]
  rfl

theorem calculate_performance_metrics_monthly_eq_some (s e : ℤ) (h : ℕ)
    (data : List (ℤ × ℚ)) (hval : window_validate s e h data = true) :
    calculate_performance_metrics_monthly s e h data =
      some (bh_build_monthly s e h data) := by
  rw [calculate_performance_metrics_monthly, hval]
  rfl

theorem calculate_dca_performance_weekly_eq_none (s e : ℤ) (h : ℕ)
    (data : List (ℤ × ℚ)) (hval : window_validate s e h data = false) :
    calculate_dca_performance_weekly s e h data = none := by
  rw [calculate_dca_performance_weekly, hval]
  rfl

theorem calculate_dca_performance_weekly_eq_sim (s e : ℤ) (h : ℕ)
    (data : List (ℤ × ℚ)) (hval : window_validate s e h data = true)
    (hse : s + 6 ≤ e) :
    calculate_dca_performance_weekly s e h data =
      simulate_dca data (get_dca_purchase_dates_weekly s e) INVESTMENT_PER_PERIOD := by
  rw [calculate_dca_performance_weekly, hval]
  have hne : get_dca_purchase_dates_weekly s e ≠ [] := by
    apply weekly_dates_ne_nil
    have := advance_to_monday_lt s
    omega
  simp only [if_true]
  rw [if_neg (by simpa using hne)]

/-- C4: once a fetched series meets the sample-count requirement and the
requested window meets the span tolerance, both the buy-and-hold and the DCA
window evaluations return `None` whenever the first sample's date differs from
the requested start date, and proceed to the metric computation itself when the
first sample's date equals the requested start date and the last sample's date
equals the requested end date. -/
theorem c4_exact_boundary_validation (s e : ℤ) (h : ℕ) (data : List (ℤ × ℚ))
    (hne : data ≠ []) (hh : 1 ≤ h)
    (hcount : minRequiredDays h ≤ data.length)
    (hspan : (h : ℤ) * 365 - 10 ≤ e - s) :
    ((dateList data).headD 0 ≠ s →
      calculate_performance_metrics s e h data = none ∧
      calculate_dca_performance_weekly s e h data = none) ∧
    ((dateList data).headD 0 = s → (dateList data).getLastD 0 = e →
      calculate_performance_metrics s e h data = some (bh_build_full s e h data) ∧
      calculate_dca_performance_weekly s e h data =
        simulate_dca data (get_dca_purchase_dates_weekly s e) INVESTMENT_PER_PERIOD) := by
  constructor
  · intro hfirst
    have hval : window_validate s e h data = false := by
      rcases Bool.eq_false_or_eq_true (window_validate s e h data) with hv | hv
      · exact absurd ((window_validate_iff s e h data).1 hv).2.2.1 hfirst
      · exact hv
    exact ⟨calculate_performance_metrics_eq_none s e h data hval,
      calculate_dca_performance_weekly_eq_none s e h data hval⟩
  · intro hfirst hlast
    have hval : window_validate s e h data = true :=
      (window_validate_iff s e h data).2 ⟨hcount, hne, hfirst, hlast, by omega⟩
    have hse : s + 6 ≤ e := by
      have : (1 : ℤ) * 365 ≤ (h : ℤ) * 365 := by
        have : (1 : ℤ) ≤ (h : ℤ) := by exact_mod_cast hh
        nlinarith
      omega
    exact ⟨calculate_performance_metrics_eq_some s e h data hval,
      calculate_dca_performance_weekly_eq_sim s e h data hval hse⟩

set_option maxRecDepth 40000 in
/-- Witness for C4: a 356-sample daily series whose first sample is exactly one
day after the requested start (day 1 versus day 0) is rejected by both entry
points. -/
theorem c4_exact_boundary_validation_witness :
    calculate_performance_metrics 0 355 1 series_late = none ∧
    calculate_dca_performance_weekly 0 355 1 series_late = none :=
  (c4_exact_boundary_validation 0 355 1 series_late (by decide) (by decide)
    (by decide) (by decide)).1 (by decide)

theorem bh_annualized_eq_compound (ps pe : ℚ) (h : ℕ) (hps : ps ≠ 0) :
    bh_annualized_return ps pe h =
      ((1 + (((pe - ps) / ps * 100 : ℚ) : ℝ) / 100) ^ ((1 : ℝ) / (h : ℝ)) - 1) * 100 := by
  rw [bh_annualized_return]
  have hne : (ps : ℝ) ≠ 0 := by exact_mod_cast hps
  have hbase : ((pe / ps : ℚ) : ℝ) = 1 + (((pe - ps) / ps * 100 : ℚ) : ℝ) / 100 := by
    push_cast
    field_simp
    ring
  rw [hbase]

/-- C9: for every accepted buy-and-hold evaluation, the stored annualized
return is exactly the compounding of the stored total return over the declared
holding period: `annualized = ((1 + total/100)^(1/h) - 1) * 100`. -/
theorem c9_compounding_identity (s e : ℤ) (h : ℕ) (data : List (ℤ × ℚ))
    (hval : window_validate s e h data = true)
    (hps : 0 < (priceList data).headD 0) :
    (bh_build_full s e h data).annualized_return_pct =
      ((1 + ((bh_build_full s e h data).total_return_pct : ℝ) / 100) ^
        ((1 : ℝ) / (h : ℝ)) - 1) * 100 := by
  have hann : (bh_build_full s e h data).annualized_return_pct =
      bh_annualized_return ((priceList data).headD 0) ((priceList data).getLastD 0) h := rfl
  have htot : (bh_build_full s e h data).total_return_pct =
      ((priceList data).getLastD 0 - (priceList data).headD 0) /
        (priceList data).headD 0 * 100 := rfl
  rw [hann, htot]
  exact bh_annualized_eq_compound _ _ h hps.ne'

set_option maxRecDepth 40000 in
/-- Witness for C9 at the accepted 1-year window `[0, 355]` over `series306`. -/
theorem c9_compounding_identity_witness :
    (bh_build_full 0 355 1 series306).annualized_return_pct =
      ((1 + ((bh_build_full 0 355 1 series306).total_return_pct : ℝ) / 100) ^
        ((1 : ℝ) / ((1 : ℕ) : ℝ)) - 1) * 100 :=
  c9_compounding_identity 0 355 1 series306 (by decide) (by decide)

/-! ### DCA structural lemmas and the annualized-return year count (C3) -/

theorem simulate_dca_eq_some (data : List (ℤ × ℚ)) (pd : List ℤ) (inv : ℚ)
    (hne : dca_purchases data pd inv ≠ []) :
    simulate_dca data pd inv = some (dca_build data (dca_purchases data pd inv) inv) := by
  rw [simulate_dca]
  rw [if_neg (by simpa using hne)]

theorem dca_build_total_invested (data : List (ℤ × ℚ)) (purchases : List Purchase)
    (inv : ℚ) :
    (dca_build data purchases inv).total_invested =
      (purchases.map Purchase.invested).sum := rfl

theorem dca_build_final_value (data : List (ℤ × ℚ)) (purchases : List Purchase)
    (inv : ℚ) :
    (dca_build data purchases inv).final_value =
      (purchases.map Purchase.units).sum * (priceList data).getLastD 0 := rfl

theorem dca_build_annualized (data : List (ℤ × ℚ)) (purchases : List Purchase)
    (inv : ℚ) :
    (dca_build data purchases inv).annualized_return_pct =
      dca_annualized_return ((purchases.map Purchase.invested).sum)
        ((purchases.map Purchase.units).sum * (priceList data).getLastD 0)
        (observed_years data) := rfl

theorem dca_purchases_mem {data : List (ℤ × ℚ)} {pd : List ℤ} {inv : ℚ}
    {p : Purchase} (hp : p ∈ dca_purchases data pd inv) :
    p.units = inv / p.price ∧ p.invested = inv ∧ (p.pdate, p.price) ∈ data := by
  rw [dca_purchases, List.mem_filterMap] at hp
  obtain ⟨d, -, hd⟩ := hp
  rw [Option.map_eq_some'] at hd
  obtain ⟨price, hlook, rfl⟩ := hd
  refine ⟨rfl, rfl, ?_⟩
  rw [price_lookup, Option.map_eq_some'] at hlook
  obtain ⟨x, hfind, hsnd⟩ := hlook
  have hmem := List.mem_of_find?_eq_some hfind
  have hpred := List.find?_some hfind
  rw [List.mem_reverse] at hmem
  have hx1 : x.1 = d := by simpa using hpred
  have : x = (d, price) := by
    cases x
    simp_all
  rw [← this]
  exact hmem

set_option maxRecDepth 40000 in
theorem series306_purchases_invested :
    (dca_purchases series306 (get_dca_purchase_dates_weekly 0 355)
      INVESTMENT_PER_PERIOD).map Purchase.invested = [100] := by decide

set_option maxRecDepth 40000 in
theorem series306_purchases_price :
    (dca_purchases series306 (get_dca_purchase_dates_weekly 0 355)
      INVESTMENT_PER_PERIOD).map Purchase.price = [1] := by decide

theorem series306_total_invested :
    (dca_build series306 (dca_purchases series306 (get_dca_purchase_dates_weekly 0 355)
      INVESTMENT_PER_PERIOD) INVESTMENT_PER_PERIOD).total_invested = 100 := by
  rw [dca_build_total_invested, series306_purchases_invested]
  norm_num

set_option maxRecDepth 40000 in
theorem series306_final_value :
    (dca_build series306 (dca_purchases series306 (get_dca_purchase_dates_weekly 0 355)
      INVESTMENT_PER_PERIOD) INVESTMENT_PER_PERIOD).final_value = 200 := by
  rw [dca_build_final_value]
  have hu : (dca_purchases series306 (get_dca_purchase_dates_weekly 0 355)
        INVESTMENT_PER_PERIOD).map Purchase.units =
      ((dca_purchases series306 (get_dca_purchase_dates_weekly 0 355)
        INVESTMENT_PER_PERIOD).map Purchase.price).map
          (fun x => INVESTMENT_PER_PERIOD / x) := by
    rw [List.map_map]
    exact List.map_congr_left fun p hp => (dca_purchases_mem hp).1
  rw [hu, series306_purchases_price,
    show (priceList series306).getLastD 0 = 2 from by decide]
  norm_num [INVESTMENT_PER_PERIOD]

set_option maxRecDepth 40000 in
theorem series306_observed_years : observed_years series306 = 71 / 73 := by
  rw [observed_years, show (dateList series306).getLastD 0 = 355 from by decide,
    show (dateList series306).headD 0 = 0 from by decide]
  norm_num

theorem dca_ann_value_ne :
    dca_annualized_return 100 200 (71 / 73) ≠ bh_annualized_return 100 200 1 := by
  rw [dca_annualized_return, bh_annualized_return, if_pos (by norm_num)]
  have h1 : ((200 / 100 : ℚ) : ℝ) = 2 := by norm_num
  have h2 : ((1 / (71 / 73 : ℚ) : ℚ) : ℝ) = 73 / 71 := by norm_num
  have h3 : (1 : ℝ) / ((1 : ℕ) : ℝ) = 1 := by norm_num
  rw [h1, h2, h3]
  have hlt : (2 : ℝ) ^ (1 : ℝ) < (2 : ℝ) ^ (73 / 71 : ℝ) :=
    Real.rpow_lt_rpow_of_exponent_lt (by norm_num) (by norm_num)
  intro hcontra
  have heq : (2 : ℝ) ^ (73 / 71 : ℝ) = (2 : ℝ) ^ (1 : ℝ) := by linarith
  exact hlt.ne' heq

set_option maxRecDepth 40000 in
/-- C3 (counterexample): the accepted weekly DCA evaluation of `series306` on
the declared 1-year window `[0, 355]` invests 100 and ends worth 200, yet its
annualized return is NOT `((final_value / total_invested)^(1/h) - 1)` with the
declared holding period `h = 1` (the §4.3 formula): the code exponentiates by
the observed day count over 365 (`355/365` years) instead. -/
theorem c3_counterexample :
    (calculate_dca_performance_weekly 0 355 1 series306).map DCAMetrics.total_invested
        = some 100 ∧
    (calculate_dca_performance_weekly 0 355 1 series306).map DCAMetrics.final_value
        = some 200 ∧
    (calculate_dca_performance_weekly 0 355 1 series306).map
        DCAMetrics.annualized_return_pct ≠ some (bh_annualized_return 100 200 1) := by
  have hval : window_validate 0 355 1 series306 = true := by decide
  have heq := calculate_dca_performance_weekly_eq_sim 0 355 1 series306 hval (by decide)
  have hpne : dca_purchases series306 (get_dca_purchase_dates_weekly 0 355)
      INVESTMENT_PER_PERIOD ≠ [] :=
    List.ne_nil_of_length_pos (by decide)
  have hsim := simulate_dca_eq_some series306 (get_dca_purchase_dates_weekly 0 355)
    INVESTMENT_PER_PERIOD hpne
  rw [heq, hsim]
  have hann : (dca_build series306 (dca_purchases series306
        (get_dca_purchase_dates_weekly 0 355) INVESTMENT_PER_PERIOD)
        INVESTMENT_PER_PERIOD).annualized_return_pct =
      dca_annualized_return 100 200 (71 / 73) := by
    rw [dca_build_annualized, series306_observed_years,
      ← dca_build_total_invested series306 _ INVESTMENT_PER_PERIOD,
      ← dca_build_final_value series306 _ INVESTMENT_PER_PERIOD,
      series306_total_invested, series306_final_value]
  refine ⟨by rw [Option.map_some', series306_total_invested],
    by rw [Option.map_some', series306_final_value], ?_⟩
  rw [Option.map_some', hann]
  intro hcontra
  exact dca_ann_value_ne (Option.some_injective _ hcontra)

/-- C3 (amended claim): for every DCA simulation record, the annualized return
uses the OBSERVED holding period — the day count between the first and last
series dates divided by 365 — as the year count of the §4.3-style compounding
formula, not the declared holding-period-years. -/
theorem c3_amended_observed_year_count (data : List (ℤ × ℚ))
    (purchases : List Purchase) (inv : ℚ)
    (hti : 0 < (dca_build data purchases inv).total_invested)
    (hdays : 0 < (dateList data).getLastD 0 - (dateList data).headD 0) :
    (dca_build data purchases inv).annualized_return_pct =
      ((((dca_build data purchases inv).final_value /
          (dca_build data purchases inv).total_invested : ℚ) : ℝ) ^
        ((365 : ℝ) / (((dateList data).getLastD 0 - (dateList data).headD 0 : ℤ) : ℝ))
        - 1) * 100 := by
  rw [dca_build_annualized, dca_build_final_value, dca_build_total_invested]
  rw [dca_build_total_invested] at hti
  have hyd : (0 : ℚ) < observed_years data := by
    rw [observed_years]
    positivity
  rw [dca_annualized_return, if_pos ⟨hyd, hti⟩]
  have hexp : ((1 / observed_years data : ℚ) : ℝ) =
      (365 : ℝ) / (((dateList data).getLastD 0 - (dateList data).headD 0 : ℤ) : ℝ) := by
    rw [observed_years, one_div_div]
    push_cast
    ring
  rw [hexp]

set_option maxRecDepth 40000 in
/-- Witness for the amended C3 at the accepted window `[0, 355]` over
`series306`: one purchase of 100, positive observed span of 355 days. -/
theorem c3_amended_observed_year_count_witness :
    (dca_build series306 (dca_purchases series306 (get_dca_purchase_dates_weekly 0 355)
        INVESTMENT_PER_PERIOD) INVESTMENT_PER_PERIOD).annualized_return_pct =
      ((((dca_build series306 (dca_purchases series306
          (get_dca_purchase_dates_weekly 0 355) INVESTMENT_PER_PERIOD)
          INVESTMENT_PER_PERIOD).final_value /
        (dca_build series306 (dca_purchases series306
          (get_dca_purchase_dates_weekly 0 355) INVESTMENT_PER_PERIOD)
          INVESTMENT_PER_PERIOD).total_invested : ℚ) : ℝ) ^
        ((365 : ℝ) /
          (((dateList series306).getLastD 0 - (dateList series306).headD 0 : ℤ) : ℝ))
        - 1) * 100 :=
  c3_amended_observed_year_count series306 _ INVESTMENT_PER_PERIOD
    (by rw [series306_total_invested]; norm_num) (by decide)

/-! ### Full-run versus monthly-update buy-and-hold records (C6) -/

theorem bh_build_full_dc (s e : ℤ) (h : ℕ) (data : List (ℤ × ℚ)) :
    (bh_build_full s e h data).data_completeness_pct =
      if 0 < e - s then (data.length : ℚ) / ((e - s : ℤ) : ℚ) * 100 else 0 := rfl

theorem bh_build_monthly_dc (s e : ℤ) (h : ℕ) (data : List (ℤ × ℚ)) :
    (bh_build_monthly s e h data).data_completeness_pct =
      if 0 < (dateList data).getLastD 0 - (dateList data).headD 0 + 1 then
        (data.length : ℚ) /
          (((dateList data).getLastD 0 - (dateList data).headD 0 + 1 : ℤ) : ℚ) * 100
      else 0 := rfl

set_option maxRecDepth 40000 in
/-- C6 (counterexample): on the accepted window `[0, 355]` over `series306`,
the full run and the monthly update both produce a record, but the records are
NOT equal: the full run stores data completeness `306/355·100` (denominator
`(end-start).days`) while the monthly update stores `306/356·100` (denominator
`(last-first).days + 1`). -/
theorem c6_counterexample :
    (calculate_performance_metrics 0 355 1 series306).isSome = true ∧
    (calculate_performance_metrics_monthly 0 355 1 series306).isSome = true ∧
    calculate_performance_metrics 0 355 1 series306 ≠
      calculate_performance_metrics_monthly 0 355 1 series306 := by
  have hval : window_validate 0 355 1 series306 = true := by decide
  have h1 := calculate_performance_metrics_eq_some 0 355 1 series306 hval
  have h2 := calculate_performance_metrics_monthly_eq_some 0 355 1 series306 hval
  refine ⟨by rw [h1]; rfl, by rw [h2]; rfl, ?_⟩
  rw [h1, h2]
  intro hcontra
  have hrec := Option.some_injective _ hcontra
  have hdc := congrArg BHMetrics.data_completeness_pct hrec
  rw [bh_build_full_dc, bh_build_monthly_dc,
    show (dateList series306).getLastD 0 = 355 from by decide,
    show (dateList series306).headD 0 = 0 from by decide,
    show series306.length = 306 from by decide] at hdc
  norm_num at hdc

theorem min_loop_snd : ∀ (xs : List ℚ) (b : ℚ) (bi i : ℕ),
    (min_loop b bi i xs).2 = argmin_loop b bi i xs
  | [], _, _, _ => rfl
  | p :: rest, b, bi, i => by
    simp only [min_loop, argmin_loop]
    by_cases hpb : p < b
    · rw [if_pos hpb, if_pos hpb, min_loop_snd]
    · rw [if_neg hpb, if_neg hpb, min_loop_snd]

theorem min_loop_fst : ∀ (xs : List ℚ) (b : ℚ) (bi i : ℕ),
    (min_loop b bi i xs).1 = xs.foldl min b
  | [], _, _, _ => rfl
  | p :: rest, b, bi, i => by
    simp only [min_loop, List.foldl_cons]
    by_cases hpb : p < b
    · rw [if_pos hpb, min_loop_fst, min_eq_right hpb.le]
    · rw [if_neg hpb, min_loop_fst, min_eq_left (not_lt.1 hpb)]

theorem argmin_loop_map_strictMono (f : ℚ → ℚ) (hf : StrictMono f) :
    ∀ (xs : List ℚ) (b : ℚ) (bi i : ℕ),
      argmin_loop (f b) bi i (xs.map f) = argmin_loop b bi i xs
  | [], _, _, _ => rfl
  | p :: rest, b, bi, i => by
    simp only [List.map_cons, argmin_loop]
    by_cases hpb : p < b
    · rw [if_pos (hf hpb), if_pos hpb, argmin_loop_map_strictMono f hf]
    · rw [if_neg (fun hc => hpb (hf.lt_iff_lt.1 hc)), if_neg hpb,
        argmin_loop_map_strictMono f hf]

theorem foldl_min_map_mono (f : ℚ → ℚ) (hf : Monotone f) :
    ∀ (xs : List ℚ) (b : ℚ), (xs.map f).foldl min (f b) = f (xs.foldl min b)
  | [], _ => rfl
  | p :: rest, b => by
    simp only [List.map_cons, List.foldl_cons]
    rw [← hf.map_min, foldl_min_map_mono f hf]

theorem argmin_loop_lt : ∀ (xs : List ℚ) (b : ℚ) (bi i : ℕ), bi < i →
    argmin_loop b bi i xs < i + xs.length
  | [], _, _, _, h => by simpa using h
  | p :: rest, b, bi, i, h => by
    simp only [argmin_loop, List.length_cons]
    by_cases hpb : p < b
    · rw [if_pos hpb]
      have := argmin_loop_lt rest p i (i + 1) (by omega)
      omega
    · rw [if_neg hpb]
      have := argmin_loop_lt rest b bi (i + 1) (by omega)
      omega

theorem np_argmin_lt_length (x : ℚ) (rest : List ℚ) :
    np_argmin (x :: rest) < (x :: rest).length := by
  rw [np_argmin, List.length_cons]
  have := argmin_loop_lt rest x 0 1 (by omega)
  omega

theorem entry_transform_mono (p : ℚ) (hp : 0 < p) :
    Monotone (fun x : ℚ => (x - p) / p) := fun a b hab => by
  exact (div_le_div_right hp).2 (by linarith)

theorem entry_transform_strictMono (p : ℚ) (hp : 0 < p) :
    StrictMono (fun x : ℚ => (x - p) / p) := fun a b hab => by
  exact (div_lt_div_right hp).2 (by linarith)

theorem max_loss_value_eq (p : ℚ) (rest : List ℚ) (hp : 0 < p) :
    (calculate_max_loss_from_entry (p :: rest) p).1 =
      np_min ((p :: rest).map (fun x => (x - p) / p)) * 100 := by
  rw [calculate_max_loss_from_entry, np_min.eq_def]
  simp only [List.map_cons]
  rw [min_loop_fst, List.foldl_cons, min_self,
    show ((p - p) / p : ℚ) = (fun x : ℚ => (x - p) / p) p from by simp,
    foldl_min_map_mono _ (entry_transform_mono p hp)]

theorem max_loss_idx_eq (p : ℚ) (rest : List ℚ) (hp : 0 < p) :
    (calculate_max_loss_from_entry (p :: rest) p).2 =
      np_argmin ((p :: rest).map (fun x => (x - p) / p)) := by
  rw [calculate_max_loss_from_entry, np_argmin.eq_def]
  simp only [List.map_cons]
  rw [min_loop_snd, argmin_loop, if_neg (lt_irrefl p),
    show ((p - p) / p : ℚ) = (fun x : ℚ => (x - p) / p) p from by simp,
    argmin_loop_map_strictMono _ (entry_transform_strictMono p hp)]

/-- C6 (amended claim): for every accepted window with a positive entry price,
the full-run record and the monthly-update record agree on every field EXCEPT
`data_completeness_pct` (where the full run divides by `(end-start).days` and
the monthly update by `(last-first).days + 1`); equivalently, the two records
become equal once that one field is overridden. -/
theorem c6_amended_records_equal_except_dc (s e : ℤ) (h : ℕ) (data : List (ℤ × ℚ))
    (hval : window_validate s e h data = true)
    (hpos : 0 < (priceList data).headD 0) :
    { bh_build_full s e h data with data_completeness_pct := 0 } =
      { bh_build_monthly s e h data with data_completeness_pct := 0 } := by
  obtain ⟨-, hne, -, -, -⟩ := (window_validate_iff s e h data).1 hval
  obtain ⟨x, xs, rfl⟩ := List.exists_cons_of_ne_nil hne
  have hps : priceList (x :: xs) = x.2 :: priceList xs := rfl
  have hds : dateList (x :: xs) = x.1 :: dateList xs := rfl
  rw [hps, List.headD_cons] at hpos
  have hidx2 : (calculate_max_loss_from_entry (x.2 :: priceList xs) x.2).2 <
      (x.1 :: dateList xs).length := by
    rw [max_loss_idx_eq x.2 (priceList xs) hpos, List.map_cons]
    have h1 := np_argmin_lt_length ((x.2 - x.2) / x.2)
      ((priceList xs).map (fun q : ℚ => (q - x.2) / x.2))
    simp only [List.length_cons, List.length_map] at h1 ⊢
    have hlen : (dateList xs).length = (priceList xs).length := by
      simp [dateList, priceList]
    rw [hlen]
    exact h1
  simp only [bh_build_full, bh_build_monthly, hps, hds, List.headD_cons]
  rw [calculate_returns_np_eq, calculate_max_drawdown_m_eq,
    ← max_loss_value_eq x.2 (priceList xs) hpos,
    ← max_loss_idx_eq x.2 (priceList xs) hpos,
    if_pos hidx2]

set_option maxRecDepth 40000 in
/-- Witness for the amended C6 at the accepted window `[0, 355]` over
`series306`. -/
theorem c6_amended_records_equal_except_dc_witness :
    { bh_build_full 0 355 1 series306 with data_completeness_pct := 0 } =
      { bh_build_monthly 0 355 1 series306 with data_completeness_pct := 0 } :=
  c6_amended_records_equal_except_dc 0 355 1 series306 (by decide) (by decide)

/-! ### DCA accounting invariants (C10) -/

theorem dca_build_number_of_purchases (data : List (ℤ × ℚ))
    (purchases : List Purchase) (inv : ℚ) :
    (dca_build data purchases inv).number_of_purchases = purchases.length := rfl

theorem dca_build_average_purchase_price (data : List (ℤ × ℚ))
    (purchases : List Purchase) (inv : ℚ) :
    (dca_build data purchases inv).average_purchase_price =
      if 0 < (purchases.map Purchase.units).sum then
        (purchases.map Purchase.invested).sum / (purchases.map Purchase.units).sum
      else 0 := rfl

theorem list_map_sum_const {α : Type} (c : ℚ) (f : α → ℚ) :
    ∀ l : List α, (∀ a ∈ l, f a = c) → (l.map f).sum = l.length * c
  | [], _ => by simp
  | a :: rest, hf => by
    rw [List.map_cons, List.sum_cons, hf a (by simp),
      list_map_sum_const c f rest (fun b hb => hf b (by simp [hb])), List.length_cons]
    push_cast
    ring

/-- C10: whenever `simulate_dca` returns a record (for a positive-price series
and positive per-purchase contribution), the accounting invariants hold: at
least one purchase; total invested = number of purchases × contribution; total
units = Σ contribution/price over executed purchases and is positive (as is the
invested total, so every division on these quantities has a nonzero
denominator); average purchase price = invested/units; final value = units ×
final price. -/
theorem c10_dca_accounting_invariants (data : List (ℤ × ℚ)) (pd : List ℤ) (inv : ℚ)
    (hpos : ∀ x ∈ data, 0 < x.2) (hinv : 0 < inv)
    (hne : dca_purchases data pd inv ≠ []) :
    simulate_dca data pd inv = some (dca_build data (dca_purchases data pd inv) inv) ∧
    1 ≤ (dca_build data (dca_purchases data pd inv) inv).number_of_purchases ∧
    (dca_build data (dca_purchases data pd inv) inv).total_invested =
      ((dca_build data (dca_purchases data pd inv) inv).number_of_purchases : ℚ) * inv ∧
    (dca_build data (dca_purchases data pd inv) inv).total_units_acquired =
      ((dca_purchases data pd inv).map (fun p => inv / p.price)).sum ∧
    0 < (dca_build data (dca_purchases data pd inv) inv).total_units_acquired ∧
    0 < (dca_build data (dca_purchases data pd inv) inv).total_invested ∧
    (dca_build data (dca_purchases data pd inv) inv).average_purchase_price =
      (dca_build data (dca_purchases data pd inv) inv).total_invested /
        (dca_build data (dca_purchases data pd inv) inv).total_units_acquired ∧
    (dca_build data (dca_purchases data pd inv) inv).final_value =
      (dca_build data (dca_purchases data pd inv) inv).total_units_acquired *
        (priceList data).getLastD 0 := by
  have hcount : 1 ≤ (dca_purchases data pd inv).length := List.length_pos.2 hne
  have hunits : (dca_purchases data pd inv).map Purchase.units =
      (dca_purchases data pd inv).map (fun p => inv / p.price) :=
    List.map_congr_left fun p hp => (dca_purchases_mem hp).1
  have hti : ((dca_purchases data pd inv).map Purchase.invested).sum =
      ((dca_purchases data pd inv).length : ℚ) * inv :=
    list_map_sum_const inv Purchase.invested _ fun p hp => (dca_purchases_mem hp).2.1
  have htu : 0 < ((dca_purchases data pd inv).map Purchase.units).sum := by
    rw [hunits]
    apply List.sum_pos
    · intro q hq
      rw [List.mem_map] at hq
      obtain ⟨p, hp, rfl⟩ := hq
      have hprice : 0 < p.price := hpos _ (dca_purchases_mem hp).2.2
      positivity
    · simpa using hne
  have hti_pos : 0 < ((dca_purchases data pd inv).map Purchase.invested).sum := by
    rw [hti]
    have : (1 : ℚ) ≤ ((dca_purchases data pd inv).length : ℚ) := by exact_mod_cast hcount
    nlinarith
  refine ⟨simulate_dca_eq_some data pd inv hne, ?_, ?_, ?_, ?_, ?_, ?_, ?_⟩
  · rw [dca_build_number_of_purchases]
    exact hcount
  · rw [dca_build_total_invested, dca_build_number_of_purchases]
    exact hti
  · rw [show (dca_build data (dca_purchases data pd inv) inv).total_units_acquired =
      ((dca_purchases data pd inv).map Purchase.units).sum from rfl, hunits]
  · rw [show (dca_build data (dca_purchases data pd inv) inv).total_units_acquired =
      ((dca_purchases data pd inv).map Purchase.units).sum from rfl]
    exact htu
  · rw [dca_build_total_invested]
    exact hti_pos
  · rw [dca_build_average_purchase_price, if_pos htu]
    rfl
  · rw [dca_build_final_value]
    rfl

/-- Witness for C10: three-day series `data3` with purchases scheduled on days
0 and 2, contribution 100. -/
theorem c10_dca_accounting_invariants_witness :
    simulate_dca data3 [0, 2] 100 =
      some (dca_build data3 (dca_purchases data3 [0, 2] 100) 100) ∧
    1 ≤ (dca_build data3 (dca_purchases data3 [0, 2] 100) 100).number_of_purchases ∧
    (dca_build data3 (dca_purchases data3 [0, 2] 100) 100).total_invested =
      ((dca_build data3 (dca_purchases data3 [0, 2] 100) 100).number_of_purchases : ℚ) *
        100 ∧
    (dca_build data3 (dca_purchases data3 [0, 2] 100) 100).total_units_acquired =
      ((dca_purchases data3 [0, 2] 100).map (fun p => 100 / p.price)).sum ∧
    0 < (dca_build data3 (dca_purchases data3 [0, 2] 100) 100).total_units_acquired ∧
    0 < (dca_build data3 (dca_purchases data3 [0, 2] 100) 100).total_invested ∧
    (dca_build data3 (dca_purchases data3 [0, 2] 100) 100).average_purchase_price =
      (dca_build data3 (dca_purchases data3 [0, 2] 100) 100).total_invested /
        (dca_build data3 (dca_purchases data3 [0, 2] 100) 100).total_units_acquired ∧
    (dca_build data3 (dca_purchases data3 [0, 2] 100) 100).final_value =
      (dca_build data3 (dca_purchases data3 [0, 2] 100) 100).total_units_acquired *
        (priceList data3).getLastD 0 :=
  c10_dca_accounting_invariants data3 [0, 2] 100 (by decide) (by decide)
    (List.ne_nil_of_length_pos (by decide))

/-! ### Single-purchase DCA reduces to lump sum (C7) -/

theorem find?_append_of_none {α : Type} (p : α → Bool) :
    ∀ (l₁ l₂ : List α), (∀ y ∈ l₁, p y = false) → (l₁ ++ l₂).find? p = l₂.find? p
  | [], _, _ => rfl
  | a :: l₁, l₂, h => by
    have ha : p a = false := h a (by simp)
    rw [List.cons_append, List.find?_cons, ha]
    exact find?_append_of_none p l₁ l₂ (fun y hy => h y (by simp [hy]))

theorem dca_vol_eq (l : List ℚ) :
    (if 1 < l.length then Real.sqrt (sampleVar l) * Real.sqrt 365 * 100 else (0 : ℝ)) =
      calculate_volatility l := by
  rw [calculate_volatility]
  by_cases hl : l.length < 2
  · rw [if_neg (by omega), if_pos hl]
  · rw [if_pos (by omega), if_neg hl]

theorem dca_portfolio_returns_scale (u : ℚ) (hu : u ≠ 0) :
    ∀ prices : List ℚ, (∀ q ∈ prices, q ≠ 0) →
      dca_portfolio_returns (prices.map (fun q => u * q)) = calculate_returns prices
  | [], _ => rfl
  | [_], _ => rfl
  | a :: b :: rest, hq => by
    have ha : a ≠ 0 := hq a (by simp)
    have ih := dca_portfolio_returns_scale u hu (b :: rest)
      (fun q hqq => hq q (List.mem_cons_of_mem _ hqq))
    have hg : (fun ab : ℚ × ℚ => if ab.1 = 0 then none else some ((ab.2 - ab.1) / ab.1))
        (u * a, u * b) = some ((b - a) / a) := by
      show (if u * a = 0 then none else some ((u * b - u * a) / (u * a))) =
        some ((b - a) / a)
      rw [if_neg (mul_ne_zero hu ha), ← mul_sub, mul_div_mul_left _ _ hu]
    rw [calculate_returns]
    simp only [dca_portfolio_returns, List.map_cons, List.tail_cons,
      List.zipWith_cons_cons, List.filterMap_cons] at ih ⊢
    simp only [hg]
    rw [ih]

theorem dca_mdd_loop_scale (u : ℚ) (hu : 0 < u) :
    ∀ (xs : List ℚ) (pk d : ℚ) (j i : ℕ), 0 < pk → (∀ q ∈ xs, 0 < q) →
      dca_mdd_loop (u * pk) d j i (xs.map (fun q => u * q)) = mdd_loop pk d j i xs
  | [], _, _, _, _, _, _ => rfl
  | q :: rest, pk, d, j, i, hpk, hq => by
    have hq0 : 0 < q := hq q (by simp)
    have hrest : ∀ r ∈ rest, 0 < r := fun r hr => hq r (List.mem_cons_of_mem _ hr)
    simp only [List.map_cons, dca_mdd_loop, mdd_loop]
    have hpeak2 : (if u * pk < u * q then u * q else u * pk) =
        u * (if pk < q then q else pk) := by
      by_cases hlt : pk < q
      · rw [if_pos hlt, if_pos ((mul_lt_mul_left hu).2 hlt)]
      · rw [if_neg hlt, if_neg (fun hc => hlt ((mul_lt_mul_left hu).1 hc))]
    rw [hpeak2]
    have hM : 0 < (if pk < q then q else pk) := by
      by_cases hlt : pk < q
      · rwa [if_pos hlt]
      · rwa [if_neg hlt]
    rw [if_pos (mul_pos hu hM)]
    have hdd : (u * q - u * (if pk < q then q else pk)) /
        (u * (if pk < q then q else pk)) =
        (q - (if pk < q then q else pk)) / (if pk < q then q else pk) := by
      rw [← mul_sub, mul_div_mul_left _ _ hu.ne']
    rw [hdd]
    by_cases hcase : (q - (if pk < q then q else pk)) / (if pk < q then q else pk) < d
    · rw [if_pos hcase, if_pos hcase]
      exact dca_mdd_loop_scale u hu rest _ _ _ _ hM hrest
    · rw [if_neg hcase, if_neg hcase]
      exact dca_mdd_loop_scale u hu rest _ _ _ _ hM hrest

theorem dca_build_total_return (data : List (ℤ × ℚ)) (purchases : List Purchase)
    (inv : ℚ) :
    (dca_build data purchases inv).total_return_pct =
      if 0 < (purchases.map Purchase.invested).sum then
        ((purchases.map Purchase.units).sum * (priceList data).getLastD 0 -
          (purchases.map Purchase.invested).sum) /
          (purchases.map Purchase.invested).sum * 100
      else 0 := rfl

theorem dca_build_lumpsum_return (data : List (ℤ × ℚ)) (purchases : List Purchase)
    (inv : ℚ) :
    (dca_build data purchases inv).lumpsum_return_pct =
      if 0 < (purchases.map Purchase.invested).sum then
        ((purchases.map Purchase.invested).sum / (priceList data).headD 0 *
          (priceList data).getLastD 0 - (purchases.map Purchase.invested).sum) /
          (purchases.map Purchase.invested).sum * 100
      else 0 := rfl

theorem dca_build_diff (data : List (ℤ × ℚ)) (purchases : List Purchase) (inv : ℚ) :
    (dca_build data purchases inv).dca_vs_lumpsum_diff =
      (dca_build data purchases inv).total_return_pct -
        (dca_build data purchases inv).lumpsum_return_pct := rfl

theorem dca_build_volatility (data : List (ℤ × ℚ)) (purchases : List Purchase)
    (inv : ℚ) :
    (dca_build data purchases inv).volatility_pct =
      if 1 < (dca_portfolio_returns ((dca_portfolio_values data purchases).drop
          (dca_first_purchase_idx data purchases))).length then
        Real.sqrt (sampleVar (dca_portfolio_returns
          ((dca_portfolio_values data purchases).drop
            (dca_first_purchase_idx data purchases)))) * Real.sqrt 365 * 100
      else 0 := rfl

theorem dca_build_max_drawdown (data : List (ℤ × ℚ)) (purchases : List Purchase)
    (inv : ℚ) :
    (dca_build data purchases inv).max_drawdown_pct =
      if 1 < ((dca_portfolio_values data purchases).drop
          (dca_first_purchase_idx data purchases)).length then
        |(dca_mdd_loop (((dca_portfolio_values data purchases).drop
            (dca_first_purchase_idx data purchases)).headD 0) 0 0 0
          ((dca_portfolio_values data purchases).drop
            (dca_first_purchase_idx data purchases))).1 * 100|
      else 0 := rfl

/-- C7: a DCA simulation whose schedule is exactly the first series date
reduces to the lump-sum baseline: the simulation succeeds, the DCA total
return equals the lump-sum return (so `dca_vs_lumpsum_diff = 0`), and the DCA
volatility and max drawdown over the active sub-series equal the buy-and-hold
volatility and max drawdown of the price series. -/
theorem c7_single_purchase_lumpsum (x : ℤ × ℚ) (rest : List (ℤ × ℚ))
    (hsorted : List.Pairwise (fun a b : ℤ × ℚ => a.1 < b.1) (x :: rest))
    (hpos : ∀ y ∈ x :: rest, 0 < y.2) (inv : ℚ) (hinv : 0 < inv) :
    simulate_dca (x :: rest) [x.1] inv =
      some (dca_build (x :: rest) (dca_purchases (x :: rest) [x.1] inv) inv) ∧
    (dca_build (x :: rest) (dca_purchases (x :: rest) [x.1] inv)
      inv).dca_vs_lumpsum_diff = 0 ∧
    (dca_build (x :: rest) (dca_purchases (x :: rest) [x.1] inv)
      inv).total_return_pct =
      (dca_build (x :: rest) (dca_purchases (x :: rest) [x.1] inv)
        inv).lumpsum_return_pct ∧
    (dca_build (x :: rest) (dca_purchases (x :: rest) [x.1] inv) inv).volatility_pct =
      calculate_volatility (calculate_returns (priceList (x :: rest))) ∧
    (dca_build (x :: rest) (dca_purchases (x :: rest) [x.1] inv)
      inv).max_drawdown_pct = (calculate_max_drawdown (priceList (x :: rest))).1 := by
  have hx2 : 0 < x.2 := hpos x (by simp)
  have hu : 0 < inv / x.2 := div_pos hinv hx2
  have hrest : ∀ y ∈ rest, x.1 < y.1 := (List.pairwise_cons.1 hsorted).1
  have hlook : price_lookup (x :: rest) x.1 = some x.2 := by
    rw [price_lookup, List.reverse_cons,
      find?_append_of_none _ rest.reverse [x] (fun y hy => by
        rw [List.mem_reverse] at hy
        simp [(hrest y hy).ne'])]
    simp [List.find?_cons]
  have hP : dca_purchases (x :: rest) [x.1] inv =
      [⟨x.1, x.2, inv / x.2, inv⟩] := by
    simp [dca_purchases, hlook]
  have hplist : priceList (x :: rest) = x.2 :: priceList rest := rfl
  have hpv : dca_portfolio_values (x :: rest) [⟨x.1, x.2, inv / x.2, inv⟩] =
      (priceList (x :: rest)).map (fun q => inv / x.2 * q) := by
    rw [dca_portfolio_values, priceList, List.map_map]
    refine List.map_congr_left fun z hz => ?_
    have hle : x.1 ≤ z.1 := by
      rcases List.mem_cons.1 hz with h | h
      · rw [h]
      · exact (hrest z h).le
    simp [List.filter_cons, hle]
  have hfpi : dca_first_purchase_idx (x :: rest) [⟨x.1, x.2, inv / x.2, inv⟩] = 0 := by
    rw [dca_first_purchase_idx, hpv, hplist, List.map_cons, List.findIdx?_cons]
    have hpp : (0 : ℚ) < inv / x.2 * x.2 := by
      rw [div_mul_cancel₀ _ hx2.ne']
      exact hinv
    simp [hpp]
  have hnonzero : ∀ q ∈ priceList (x :: rest), q ≠ 0 := by
    intro q hq
    rw [priceList, List.mem_map] at hq
    obtain ⟨y, hy, rfl⟩ := hq
    exact (hpos y hy).ne'
  have hret : (dca_build (x :: rest) (dca_purchases (x :: rest) [x.1] inv)
      inv).total_return_pct =
      (dca_build (x :: rest) (dca_purchases (x :: rest) [x.1] inv)
        inv).lumpsum_return_pct := by
    rw [dca_build_total_return, dca_build_lumpsum_return, hP]
    simp only [List.map_cons, List.map_nil, List.sum_cons, List.sum_nil, add_zero,
      hplist, List.headD_cons]
  refine ⟨simulate_dca_eq_some _ _ _ (by rw [hP]; simp), ?_, hret, ?_, ?_⟩
  · rw [dca_build_diff, hret, sub_self]
  · rw [dca_build_volatility, hP, hfpi, List.drop_zero, hpv,
      dca_portfolio_returns_scale (inv / x.2) hu.ne' _ hnonzero]
    exact dca_vol_eq _
  · rw [dca_build_max_drawdown, hP, hfpi, List.drop_zero, hpv]
    have hhead : ((priceList (x :: rest)).map (fun q => inv / x.2 * q)).headD 0 =
        inv / x.2 * x.2 := by
      rw [hplist, List.map_cons, List.headD_cons]
    by_cases hlen : 1 < (priceList (x :: rest)).length
    · rw [if_pos (by simpa using hlen), hhead,
        dca_mdd_loop_scale (inv / x.2) hu (priceList (x :: rest)) x.2 0 0 0 hx2
          (fun q hq => lt_of_le_of_ne (le_of_lt ?_) (hnonzero q hq).symm)]
      · rw [calculate_max_drawdown.eq_def, if_neg (by omega)]
        rfl
      · -- 0 < q for q in the price list
        rw [priceList, List.mem_map] at hq
        obtain ⟨y, hy, rfl⟩ := hq
        exact hpos y hy
    · rw [if_neg (by simpa using hlen), calculate_max_drawdown.eq_def, if_pos (by omega)]

/-- Witness for C7: three-day series `data3` with the single purchase scheduled
on the first series date (day 0). -/
theorem c7_single_purchase_lumpsum_witness :
    simulate_dca data3 [0] 100 =
      some (dca_build data3 (dca_purchases data3 [0] 100) 100) ∧
    (dca_build data3 (dca_purchases data3 [0] 100) 100).dca_vs_lumpsum_diff = 0 ∧
    (dca_build data3 (dca_purchases data3 [0] 100) 100).total_return_pct =
      (dca_build data3 (dca_purchases data3 [0] 100) 100).lumpsum_return_pct ∧
    (dca_build data3 (dca_purchases data3 [0] 100) 100).volatility_pct =
      calculate_volatility (calculate_returns (priceList data3)) ∧
    (dca_build data3 (dca_purchases data3 [0] 100) 100).max_drawdown_pct =
      (calculate_max_drawdown (priceList data3)).1 :=
  c7_single_purchase_lumpsum (0, 2) [(1, 3), (2, 1)] (by decide) (by decide) 100
    (by decide)

/-! ### Max drawdown versus the brute-force oracle (C5) -/

/-- Drawdowns recorded by the peak-tracking loop: at each point, the price's
deviation from the running peak. -/
def dd_list : ℚ → List ℚ → List ℚ
  | _, [] => []
  | pk, p :: rest => (p - max pk p) / max pk p :: dd_list (max pk p) rest

/-- Percentage declines from a fixed entry price. -/
def declines_from (pk : ℚ) (xs : List ℚ) : List ℚ :=
  xs.map (fun q => 100 * (pk - q) / pk)

theorem mdd_loop_fst : ∀ (xs : List ℚ) (pk d : ℚ) (j i : ℕ),
    (mdd_loop pk d j i xs).1 = (dd_list pk xs).foldl min d
  | [], _, _, _, _ => rfl
  | p :: rest, pk, d, j, i => by
    simp only [mdd_loop, dd_list, List.foldl_cons]
    have hpeak : (if pk < p then p else pk) = max pk p := by
      rcases lt_or_le pk p with hlt | hle
      · rw [if_pos hlt, max_eq_right hlt.le]
      · rw [if_neg (not_lt.2 hle), max_eq_left hle]
    rw [hpeak]
    by_cases hcase : (p - max pk p) / max pk p < d
    · rw [if_pos hcase, mdd_loop_fst, min_eq_right hcase.le]
    · rw [if_neg hcase, mdd_loop_fst, min_eq_left (not_lt.1 hcase)]

theorem foldl_min_le_init : ∀ (xs : List ℚ) (d : ℚ), xs.foldl min d ≤ d
  | [], _ => le_rfl
  | a :: rest, d => by
    rw [List.foldl_cons]
    exact le_trans (foldl_min_le_init rest (min d a)) (min_le_left d a)

theorem foldr_max_nonneg : ∀ l : List ℚ, 0 ≤ l.foldr max 0
  | [] => le_rfl
  | a :: rest => by
    rw [List.foldr_cons]
    exact le_trans (foldr_max_nonneg rest) (le_max_right a _)

theorem foldr_max_append : ∀ l₁ l₂ : List ℚ,
    (l₁ ++ l₂).foldr max 0 = max (l₁.foldr max 0) (l₂.foldr max 0)
  | [], l₂ => (max_eq_right (foldr_max_nonneg l₂)).symm
  | a :: l₁, l₂ => by
    rw [List.cons_append, List.foldr_cons, List.foldr_cons,
      foldr_max_append l₁ l₂, max_assoc]

theorem foldr_max_map_max (f g : ℚ → ℚ) : ∀ l : List ℚ,
    (l.map (fun x => max (f x) (g x))).foldr max 0 =
      max ((l.map f).foldr max 0) ((l.map g).foldr max 0)
  | [] => by simp
  | a :: rest => by
    simp only [List.map_cons, List.foldr_cons]
    rw [foldr_max_map_max f g rest, max_max_max_comm]

theorem foldr_max_le : ∀ (l : List ℚ) (b : ℚ), 0 ≤ b → (∀ x ∈ l, x ≤ b) →
    l.foldr max 0 ≤ b
  | [], b, hb, _ => hb
  | a :: rest, b, hb, h => by
    rw [List.foldr_cons]
    exact max_le (h a (by simp))
      (foldr_max_le rest b hb (fun x hx => h x (List.mem_cons_of_mem _ hx)))

theorem decl_le_decl (c : ℚ) (hc : 0 ≤ c) {a b : ℚ} (ha : 0 < a) (hab : a ≤ b) :
    100 * (a - c) / a ≤ 100 * (b - c) / b := by
  have hb : 0 < b := lt_of_lt_of_le ha hab
  rw [div_le_div_iff ha hb]
  nlinarith

theorem decl_max (a b c : ℚ) (ha : 0 < a) (hb : 0 < b) (hc : 0 ≤ c) :
    100 * (max a b - c) / max a b =
      max (100 * (a - c) / a) (100 * (b - c) / b) := by
  rcases le_total a b with h | h
  · rw [max_eq_right h, max_eq_right (decl_le_decl c hc ha h)]
  · rw [max_eq_left h, max_eq_left (decl_le_decl c hc hb h)]

theorem mdd_g : ∀ (xs : List ℚ) (pk cur : ℚ), 0 < pk → cur ≤ 0 →
    (∀ q ∈ xs, 0 < q) →
    -((dd_list pk xs).foldl min cur * 100) =
      max (-(cur * 100)) ((declines_from pk xs ++ pair_declines xs).foldr max 0)
  | [], pk, cur, hpk, hcur, _ => by
    simp only [dd_list, List.foldl_nil, declines_from, List.map_nil, pair_declines,
      List.nil_append, List.foldr_nil]
    rw [max_eq_left (by nlinarith)]
  | q :: rest, pk, cur, hpk, hcur, hq => by
    have hq0 : 0 < q := hq q (by simp)
    have hrest : ∀ r ∈ rest, 0 < r := fun r hr => hq r (List.mem_cons_of_mem _ hr)
    have hpkM : 0 < max pk q := lt_of_lt_of_le hpk (le_max_left _ _)
    have hdq : (q - max pk q) / max pk q ≤ 0 := by
      apply div_nonpos_of_nonpos_of_nonneg
      · simpa using le_max_right pk q
      · exact hpkM.le
    have ih := mdd_g rest (max pk q) (min cur ((q - max pk q) / max pk q)) hpkM
      (le_trans (min_le_left _ _) hcur) hrest
    simp only [dd_list, List.foldl_cons]
    rw [ih]
    have hmin : -(min cur ((q - max pk q) / max pk q) * 100) =
        max (-(cur * 100)) (-((q - max pk q) / max pk q * 100)) := by
      rw [min_mul_of_nonneg _ _ (by norm_num : (0 : ℚ) ≤ 100)]
      exact (max_neg_neg _ _).symm
    rw [hmin, max_assoc]
    congr 1
    have hdecl : -((q - max pk q) / max pk q * 100) =
        100 * (max pk q - q) / max pk q := by ring
    have hdfc : declines_from pk (q :: rest) =
        100 * (pk - q) / pk :: declines_from pk rest := by
      simp only [declines_from, List.map_cons]
    have hpd : pair_declines (q :: rest) =
        100 * (q - q) / q :: (declines_from q rest ++ pair_declines rest) := by
      simp only [pair_declines, declines_from, List.map_cons, List.cons_append]
    have hdf : declines_from (max pk q) rest =
        rest.map (fun r => max (100 * (pk - r) / pk) (100 * (q - r) / q)) := by
      rw [declines_from]
      exact List.map_congr_left fun r hr => decl_max pk q r hpk hq0 (hrest r hr).le
    rw [hdecl, decl_max pk q q hpk hq0 hq0.le, hdf, foldr_max_append,
      foldr_max_map_max, hdfc, hpd, List.cons_append, List.foldr_cons,
      foldr_max_append, List.foldr_cons, foldr_max_append]
    simp only [declines_from]
    simp [max_assoc, max_comm, max_left_comm]

theorem pair_declines_le : ∀ (prices : List ℚ), (∀ p ∈ prices, 0 < p) →
    ∀ x ∈ pair_declines prices, x ≤ 100
  | [], _, x, hx => by simp [pair_declines] at hx
  | p :: rest, hpos, x, hx => by
    have hp : 0 < p := hpos p (by simp)
    rw [show pair_declines (p :: rest) =
        ((p :: rest).map (fun q => 100 * (p - q) / p)) ++ pair_declines rest from rfl,
      List.mem_append] at hx
    rcases hx with hx | hx
    · rw [List.mem_map] at hx
      obtain ⟨q, hqmem, rfl⟩ := hx
      have hq : 0 < q := hpos q hqmem
      rw [div_le_iff hp]
      nlinarith
    · exact pair_declines_le rest (fun r hr => hpos r (List.mem_cons_of_mem _ hr)) x hx

/-- C5: for every price series of positive prices, the peak-tracking max
drawdown is between 0 and 100 (percent), and is EQUAL to the brute-force
reference oracle: the maximum over all index pairs i ≤ j of
`100 * (p[i] - p[j]) / p[i]`, taken as 0 when no pair declines. -/
theorem c5_max_drawdown_oracle (prices : List ℚ) (hpos : ∀ p ∈ prices, 0 < p) :
    0 ≤ (calculate_max_drawdown prices).1 ∧
    (calculate_max_drawdown prices).1 ≤ 100 ∧
    (calculate_max_drawdown prices).1 = oracle_max_drawdown prices := by
  have heq : (calculate_max_drawdown prices).1 = oracle_max_drawdown prices := by
    match prices, hpos with
    | [], _ => rfl
    | [p], hpos =>
      have hp : 0 < p := hpos p (by simp)
      show (0 : ℚ) = oracle_max_drawdown [p]
      rw [oracle_max_drawdown,
        show pair_declines [p] = [100 * (p - p) / p] from rfl]
      simp
    | p :: q :: rest, hpos =>
      have hp : 0 < p := hpos p (by simp)
      have hq' : ∀ r ∈ q :: rest, 0 < r := fun r hr => hpos r (List.mem_cons_of_mem _ hr)
      rw [calculate_max_drawdown.eq_def, if_neg (by simp)]
      show |(mdd_loop p 0 0 0 (p :: q :: rest)).1 * 100| =
        oracle_max_drawdown (p :: q :: rest)
      rw [mdd_loop_fst]
      have hdd0 : dd_list p (p :: q :: rest) = 0 :: dd_list p (q :: rest) := by
        simp [dd_list, max_self]
      rw [hdd0, List.foldl_cons, min_self]
      have hm : (dd_list p (q :: rest)).foldl min 0 ≤ 0 := foldl_min_le_init _ 0
      rw [abs_of_nonpos (by nlinarith), mdd_g (q :: rest) p 0 hp le_rfl hq',
        show -((0 : ℚ) * 100) = 0 from by ring, oracle_max_drawdown,
        show pair_declines (p :: q :: rest) =
          100 * (p - p) / p :: ((q :: rest).map (fun r => 100 * (p - r) / p)
            ++ pair_declines (q :: rest)) from rfl,
        List.foldr_cons, show (100 * (p - p) / p : ℚ) = 0 from by ring]
      rfl
  have h0 : 0 ≤ oracle_max_drawdown prices := foldr_max_nonneg _
  have h100 : oracle_max_drawdown prices ≤ 100 :=
    foldr_max_le _ _ (by norm_num) (fun y hy => pair_declines_le prices hpos y hy)
  exact ⟨heq ▸ h0, heq ▸ h100, heq⟩

/-- Witness for C5 on the positive price series `[4, 2, 3, 1]` (max drawdown
75%, from peak 4 to trough 1). -/
theorem c5_max_drawdown_oracle_witness :
    0 ≤ (calculate_max_drawdown [4, 2, 3, 1]).1 ∧
    (calculate_max_drawdown [4, 2, 3, 1]).1 ≤ 100 ∧
    (calculate_max_drawdown [4, 2, 3, 1]).1 = oracle_max_drawdown [4, 2, 3, 1] :=
  c5_max_drawdown_oracle [4, 2, 3, 1] (by decide)
